import Mathlib

/-!
Shallow embedding of the chart-web frontend core (src/frontend/main.js):
calendar arithmetic, fetch/normalize, series transforms, selection sync,
drill-down dispatch, and the chart-state writes performed by the four
load pipelines.  Dates are embedded as epoch day numbers (days since
1970-01-01, which was a Thursday, so JS `getDay` of day `n` is
`(n + 4) mod 7`).  JS numbers read from payloads are embedded exactly
(integers / rationals); values that may be missing, null, undefined or
non-numeric are embedded by the `JsVal` type below.
-/

namespace ChartWeb

/-! ## Definitions: the shallow embedding of main.js -/

/-- A JSON value occupying a numeric slot of a fetched payload.
`num n` covers anything JS `Number(·)` converts to the number `n`
(including numeric strings); `null` / `undefined` are the two JS
nullish values; `nonNumeric` covers values `Number(·)` turns into NaN. -/
inductive JsVal where
  | num (n : Int)
  | null
  | undefined
  | nonNumeric
deriving DecidableEq, Repr

/-- `Number(x) || 0` (the sum helper's coercion): the number itself when
`x` is numeric, `0` otherwise — nullish values convert to `0`/NaN and a
NaN result is replaced by `0` by the trailing `|| 0`. -/
def toNum0 : JsVal → Int
  | .num n => n
  | .null => 0
  | .undefined => 0
  | .nonNumeric => 0

/-- `Number(x || 0)` (the pipelines' coercion): nullish values are
replaced by `0` *before* conversion, but a truthy non-numeric value
converts to NaN, embedded as `none`. -/
def numOrNaN : JsVal → Option Int
  | .num n => some n
  | .null => some 0
  | .undefined => some 0
  | .nonNumeric => none

/-- JS `+` on possibly-NaN numbers: NaN propagates. -/
def nadd : Option Int → Option Int → Option Int
  | some a, some b => some (a + b)
  | _, _ => none

/-- main.js line 17: `const sum = arr => (arr && arr.length) ? arr.reduce((a,b)=>a+(Number(b)||0),0) : 0;`
`none` embeds a missing / nullish `arr`. -/
def sumHelper : Option (List JsVal) → Int
  | none => 0
  | some arr => if arr.length = 0 then 0 else arr.foldl (fun a b => a + toNum0 b) 0

/-- JS `getDay()` of an epoch day number: 0 = Sunday .. 6 = Saturday.
1970-01-01 (day 0) was a Thursday (`getDay() = 4`). -/
def getDay (d : Int) : Int := (d + 4) % 7

/-- main.js lines 94-99: the Monday of the week containing `d`.
```
const day = d.getDay();
const diffToMon = (day === 0) ? -6 : 1 - day;
const mon = new Date(d); mon.setDate(d.getDate() + diffToMon);
``` -/
def mondayOf (d : Int) : Int :=
  d + (if getDay d = 0 then -6 else 1 - getDay d)

/-- main.js lines 92-107, `weekDatesFrom`: the 7 consecutive dates of the
Monday-first week containing `d`
(`for(let i=0;i<7;i++){ arr.push(mon + i days); }`). -/
def weekDatesFrom (d : Int) : List Int :=
  (List.range 7).map fun (i : Nat) => mondayOf d + (i : Int)

/-- Gregorian leap-year rule, as implemented by JS `Date`. -/
def isLeap (y : Int) : Bool := (y % 4 == 0 && y % 100 != 0) || y % 400 == 0

/-- JS `new Date(y, m, 0).getDate()` (main.js lines 333 and 386) for a
month `m` in `1..12`: the number of days of that month. -/
def daysInMonth (y : Int) (m : Nat) : Nat :=
  if m = 2 then (if isLeap y then 29 else 28)
  else if m = 4 ∨ m = 6 ∨ m = 9 ∨ m = 11 then 30
  else 31

/-- main.js lines 149-150 and 403: `Math.floor((day - 1) / 7) + 1`. -/
def weekIndexInMonth (day : Nat) : Nat := (day - 1) / 7 + 1

/-- main.js lines 387-392, the `while` loop body of `buildWeekIndex`:
`while(start<=days){ const end = Math.min(start+6, days); emit (idx, start, end); start+=7; idx++; }`.
`fuel` bounds the iteration count; the loop runs at most `days` times
because `start` strictly grows. -/
def weekBlocksAux : Nat → Nat → Nat → Nat → List (Nat × Nat × Nat)
  | 0, _, _, _ => []
  | fuel + 1, days, start, idx =>
    if start ≤ days then
      (idx, start, min (start + 6) days) :: weekBlocksAux fuel days (start + 7) (idx + 1)
    else []

/-- The option list `buildWeekIndex` renders for a month of `days` days:
one `(index, startDay, endDay)` triple per `Tuần` option. -/
def weekBlocks (days : Nat) : List (Nat × Nat × Nat) := weekBlocksAux days days 1 1

/-- The closed-form block range the spec ascribes to the option list:
`startDay = (w-1)*7 + 1`, `endDay = min(startDay + 6, daysInMonth)`. -/
def weekBlockRange (y : Int) (m w : Nat) : Nat × Nat :=
  ((w - 1) * 7 + 1, min ((w - 1) * 7 + 7) (daysInMonth y m))

/-- One element of a `/logs/day/{date}` response: per-device stats
`{ device_id, pass, fail, ... }`; only the two numeric slots matter. -/
structure DeviceStat where
  pass : JsVal
  fail : JsVal
deriving DecidableEq, Repr

/-- A settled `/logs/day` response body: either a JSON array of device
stats or some non-array JSON (`!Array.isArray(arr)` in main.js line 128). -/
inductive LogResp where
  | arr (items : List DeviceStat)
  | notArr
deriving DecidableEq, Repr

/-- The failure `fetchJSON` raises for a non-2xx response (main.js
lines 82-89): it carries the HTTP status and a message built from the
status, status text and response body. -/
structure FetchErr where
  status : Nat
  message : String
deriving DecidableEq, Repr

instance : DecidableEq (Except FetchErr LogResp) := fun a b =>
  match a, b with
  | .ok x, .ok y =>
      if h : x = y then .isTrue (by rw [h]) else .isFalse (by simp [h])
  | .error x, .error y =>
      if h : x = y then .isTrue (by rw [h]) else .isFalse (by simp [h])
  | .ok _, .error _ => .isFalse (by simp)
  | .error _, .ok _ => .isFalse (by simp)

/-- main.js line 124: `.catch(e => { console.warn('logs/day failed',dt,e); return []; })`
— a failed per-day sub-request settles to the empty array. -/
def settleLog : Except FetchErr LogResp → LogResp
  | .ok r => r
  | .error _ => .arr []

/-- main.js lines 128-133: a non-array response leaves the slot at its
initial `0`; an array is folded with
`dayPass += Number(item.pass || 0); dayFail += Number(item.fail || 0);`. -/
def dayCounts : LogResp → Option Int × Option Int
  | .notArr => (some 0, some 0)
  | .arr items =>
      (items.foldl (fun a it => nadd a (numOrNaN it.pass)) (some 0),
       items.foldl (fun a it => nadd a (numOrNaN it.fail)) (some 0))

/-- main.js lines 121-136: `passArr`/`failArr` start as `Array(7).fill(0)`
and each settled per-day response writes its own slot. -/
def groupedWeek (results : List (Except FetchErr LogResp)) :
    List (Option Int) × List (Option Int) :=
  let counts := (results.map settleLog).map dayCounts
  ((List.range 7).map fun i => (counts.getD i (some 0, some 0)).1,
   (List.range 7).map fun i => (counts.getD i (some 0, some 0)).2)

/-- The end-to-end scenario of the spec: Mon..Sun sub-responses with
`pass=[5,10,0,3,8,2,1]` / `fail=[1,2,0,0,1,0,0]` where Wednesday's
sub-request fails outright. -/
def scenarioResults : List (Except FetchErr LogResp) :=
  [.ok (.arr [⟨.num 5, .num 1⟩]),
   .ok (.arr [⟨.num 10, .num 2⟩]),
   .error ⟨500, "boom"⟩,
   .ok (.arr [⟨.num 3, .num 0⟩]),
   .ok (.arr [⟨.num 8, .num 1⟩]),
   .ok (.arr [⟨.num 2, .num 0⟩]),
   .ok (.arr [⟨.num 1, .num 0⟩])]

/-- JS `Math.round`: round half toward positive infinity, i.e.
`⌊x + 1/2⌋` on exact values. -/
def mathRound (q : ℚ) : Int := ⌊q + 1 / 2⌋

/-- main.js lines 194-198 (`loadMonth`):
`const p = Number(j.pass[i]||0), f = Number(j.fail[i]||0); const tot = p+f; return tot ? Math.round((p/tot)*100) : 0;`
A NaN operand makes `tot` NaN, which is falsy, so the entry is `0`. -/
def rateEntryMonth (pass fail : List JsVal) (i : Nat) : Int :=
  match numOrNaN (pass.getD i .undefined), numOrNaN (fail.getD i .undefined) with
  | some p, some f =>
      if p + f = 0 then 0 else mathRound (((p : ℚ) / ((p : ℚ) + (f : ℚ))) * 100)
  | _, _ => 0

/-- main.js line 194: `const rate = j.labels.map((_,i)=>{ ... });`. -/
def monthRate (labels : List String) (pass fail : List JsVal) : List Int :=
  (List.range labels.length).map fun i => rateEntryMonth pass fail i

/-- main.js lines 217-221 (`loadYear`): the same computation, written a
second time in the source. -/
def rateEntryYear (pass fail : List JsVal) (i : Nat) : Int :=
  match numOrNaN (pass.getD i .undefined), numOrNaN (fail.getD i .undefined) with
  | some p, some f =>
      if p + f = 0 then 0 else mathRound (((p : ℚ) / ((p : ℚ) + (f : ℚ))) * 100)
  | _, _ => 0

/-- main.js line 217: `const rate = j.labels.map((_,i)=> { ... });`. -/
def yearRate (labels : List String) (pass fail : List JsVal) : List Int :=
  (List.range labels.length).map fun i => rateEntryYear pass fail i

/-- main.js lines 156-160: the per-index reads
`Number(weekData.pass[i]||0)` for `i` below `labels.length`. -/
def readCapped (arr : List JsVal) (n : Nat) : List (Option Int) :=
  (List.range n).map fun i => numOrNaN (arr.getD i .undefined)

/-- The running accumulation of main.js lines 155-161:
`pSum += v; passCum.push(pSum);`. -/
def cumFrom (acc : Option Int) : List (Option Int) → List (Option Int)
  | [] => []
  | v :: rest => nadd acc v :: cumFrom (nadd acc v) rest

/-- main.js lines 152-161, the cumulative-growth transform of `loadDay`:
prefix sums of the pass and fail reads, in label order. -/
def toCumulative (labels : List String) (pass fail : List JsVal) :
    List (Option Int) × List (Option Int) :=
  (cumFrom (some 0) (readCapped pass labels.length),
   cumFrom (some 0) (readCapped fail labels.length))

/-- Pure integer core of `cumFrom` (no NaN present). -/
def cumInts (acc : Int) : List Int → List Int
  | [] => []
  | v :: rest => (acc + v) :: cumInts (acc + v) rest

/-- An HTTP response as `fetchJSON` sees it (main.js lines 82-89):
`ok` is the 2xx flag, `bodyText` the text body, `json` the parsed body. -/
structure HttpResp (α : Type) where
  ok : Bool
  status : Nat
  statusText : String
  bodyText : String
  json : α

/-- main.js lines 82-89: a non-2xx response raises an error carrying the
status and the message `` `${r.status} ${r.statusText} - ${t}` `` built
from the status, the status text and the body text. -/
def fetchJSON {α : Type} (r : HttpResp α) : Except FetchErr α :=
  if r.ok then .ok r.json
  else .error ⟨r.status,
    Nat.repr r.status ++ " " ++ r.statusText ++ " - " ++ r.bodyText⟩

/-- A `/data/week/{y}/{m}/{w}` payload; `none` embeds an absent or
falsy `range`. -/
structure WeekPayload where
  labels : List String
  pass : List JsVal
  fail : List JsVal
  range : Option String
deriving DecidableEq, Repr

/-- A `/data/month/{y}/{m}` payload. -/
structure MonthPayload where
  labels : List String
  pass : List JsVal
  fail : List JsVal
  month : Option String
deriving DecidableEq, Repr

/-- A `/data/year/{y}` payload. -/
structure YearPayload where
  labels : List String
  pass : List JsVal
  fail : List JsVal
deriving DecidableEq, Repr

/-- The chart-facing state the week/month/year pipelines write: the
dataset arrays of each chart plus each view's label element text. -/
structure ChartState where
  weekLabels : List String
  weekPass : List (Option Int)
  weekFail : List (Option Int)
  weekLabelText : String
  monthLabels : List String
  monthPass : List (Option Int)
  monthFail : List (Option Int)
  monthRateData : List Int
  monthLabelText : String
  yearLabels : List String
  yearPass : List (Option Int)
  yearFail : List (Option Int)
  yearRateData : List Int
  yearLabelText : String
deriving DecidableEq, Repr

/-- main.js lines 173-183, `loadWeek`: on success write the week chart
(labels cut to `MM-DD` by `l.slice(5)`, numeric datasets, range label);
on failure only set the week label to the localized placeholder. -/
def loadWeekStep (r : Except FetchErr WeekPayload) (st : ChartState) : ChartState :=
  match r with
  | .ok j =>
      { st with
        weekLabels := j.labels.map (fun l => l.drop 5)
        weekPass := j.pass.map numOrNaN
        weekFail := j.fail.map numOrNaN
        weekLabelText := j.range.getD "" }
  | .error _ => { st with weekLabelText := "Lỗi" }

/-- main.js lines 186-203, `loadMonth`. -/
def loadMonthStep (r : Except FetchErr MonthPayload) (st : ChartState) : ChartState :=
  match r with
  | .ok j =>
      { st with
        monthLabels := j.labels
        monthPass := j.pass.map numOrNaN
        monthFail := j.fail.map numOrNaN
        monthRateData := monthRate j.labels j.pass j.fail
        monthLabelText := j.month.getD "" }
  | .error _ => { st with monthLabelText := "Lỗi" }

/-- main.js lines 206-237, `loadYear` (`y` is the year selector's value
string; `String(y)` leaves it unchanged). -/
def loadYearStep (y : String) (r : Except FetchErr YearPayload) (st : ChartState) :
    ChartState :=
  match r with
  | .ok j =>
      { st with
        yearLabels := j.labels
        yearPass := j.pass.map numOrNaN
        yearFail := j.fail.map numOrNaN
        yearRateData := yearRate j.labels j.pass j.fail
        yearLabelText := y }
  | .error _ => { st with yearLabelText := "Lỗi" }

/-- The week-view projection of the chart state. -/
def weekView (st : ChartState) :
    List String × List (Option Int) × List (Option Int) × String :=
  (st.weekLabels, st.weekPass, st.weekFail, st.weekLabelText)

/-- The month-view projection of the chart state. -/
def monthView (st : ChartState) :
    List String × List (Option Int) × List (Option Int) × List Int × String :=
  (st.monthLabels, st.monthPass, st.monthFail, st.monthRateData, st.monthLabelText)

/-- The year-view projection of the chart state. -/
def yearView (st : ChartState) :
    List String × List (Option Int) × List (Option Int) × List Int × String :=
  (st.yearLabels, st.yearPass, st.yearFail, st.yearRateData, st.yearLabelText)

/-- Completions of in-flight `loadWeek` runs apply in completion order
(single-threaded continuations): each completing run writes the chart
unconditionally. -/
def runCompletionsW (st : ChartState) (rs : List (Except FetchErr WeekPayload)) :
    ChartState :=
  rs.foldl (fun s r => loadWeekStep r s) st

/-- The empty chart state at startup. -/
def initChart : ChartState :=
  ⟨[], [], [], "", [], [], [], [], "", [], [], [], [], ""⟩

/-- Run A's payload (launched for Selection S1, completing last). -/
def payloadA : WeekPayload := ⟨["2024-01-01"], [.num 1], [.num 0], some "1-7"⟩

/-- Run B's payload (launched for Selection S2, completing first). -/
def payloadB : WeekPayload := ⟨["2024-02-05"], [.num 2], [.num 0], some "5-11"⟩

/-- Unicode simple case folding for the characters that occur in the
drill-down keys (`/i` flag of the regexes in main.js lines 424 and 432),
ASCII plus the two Vietnamese vowels of `Tuần` / `Tháng`. -/
def lcChar (c : Char) : Char :=
  if c = 'Ầ' then 'ầ' else if c = 'Á' then 'á' else c.toLower

/-- Case-insensitive literal match of `key` at the head of `s`,
returning the remainder on success. -/
def dropKey : List Char → List Char → Option (List Char)
  | [], s => some s
  | _ :: _, [] => none
  | k :: ks, c :: cs => if lcChar k = lcChar c then dropKey ks cs else none

/-- Decimal value of a digit run (`parseInt` on the captured `\d+`). -/
def digitsToNat (ds : List Char) : Nat :=
  ds.foldl (fun a c => a * 10 + (c.toNat - '0'.toNat)) 0

/-- Try `key` then `\s*(\d+)` at the head of `s`. -/
def matchKeyAt (key : List Char) (s : List Char) : Option Nat :=
  match dropKey key s with
  | none => none
  | some rest =>
      let ds := (rest.dropWhile Char.isWhitespace).takeWhile Char.isDigit
      if ds.isEmpty then none else some (digitsToNat ds)

/-- `label.match(/key\s*(\d+)/i)`: scan for the first position where the
pattern matches and return the captured number. -/
def scanKey (key : List Char) : List Char → Option Nat
  | [] => none
  | c :: cs =>
      match matchKeyAt key (c :: cs) with
      | some n => some n
      | none => scanKey key cs

/-- main.js line 424: `label.match(/Tuần\s*(\d+)/i)`. -/
def matchTuan (label : String) : Option Nat := scanKey "Tuần".data label.data

/-- main.js line 432: `label.match(/Tháng\s*(\d+)/i)`. -/
def matchThang (label : String) : Option Nat := scanKey "Tháng".data label.data

/-- main.js line 414: `/^\d{4}-\d{2}-\d{2}$/.test(label)`. -/
def isDayFormat (s : String) : Bool :=
  match s.data with
  | [c1, c2, c3, c4, c5, c6, c7, c8, c9, c10] =>
      c1.isDigit && c2.isDigit && c3.isDigit && c4.isDigit && c5 == '-' &&
      c6.isDigit && c7.isDigit && c8 == '-' && c9.isDigit && c10.isDigit
  | _ => false

/-- The observable outcome of a chart click (main.js lines 408-436):
`dayDrill d` is `syncSelectionsFromDate(d); loadDay(d)` (the Day
pipeline anchored at `d`, selectors resynchronized); `weekDrill w` is
`loadWeek(weekYear, weekMonth, w)` plus setting the week-index selector;
`monthDrill m` is setting the month selector, rebuilding the week-index
options, and `loadMonth(monthYear, m)`; `noop` surfaces nothing. -/
inductive ClickAction where
  | dayDrill (date : String)
  | weekDrill (week : Nat)
  | monthDrill (month : Nat)
  | noop
deriving DecidableEq, Repr

/-- main.js lines 409-419: the week-area chart click handler.
`labelFull` embeds `charts.week.data.labelsFull[idx]` when present and
truthy is required (`none` for an absent entry). -/
def weekChartClick (label : String) (labelFull : Option String) : ClickAction :=
  if isDayFormat label then .dayDrill label
  else
    match labelFull with
    | some lf => if lf.isEmpty then .noop else .dayDrill lf
    | none => .noop

/-- main.js lines 420-427: the month chart click handler. -/
def monthChartClick (label : String) : ClickAction :=
  match matchTuan label with
  | some wk => .weekDrill wk
  | none => .noop

/-- main.js lines 428-435: the year chart click handler. -/
def yearChartClick (label : String) : ClickAction :=
  match matchThang label with
  | some mo => .monthDrill mo
  | none => .noop

/-- The week selector row: the year and month selects plus the currently
selected value of the week-index select. -/
structure WeekSelUI where
  weekYear : Int
  weekMonth : Nat
  weekIndex : Nat
deriving DecidableEq, Repr

/-- main.js lines 384-394, `buildWeekIndex`: the week-index select's
options are replaced via `innerHTML`.  Replacing a single-select's
options discards the previous selection; with no `selected` attribute
the first option becomes selected, so the selected value is the first
emitted block index. -/
def rebuildWeekIndex (s : WeekSelUI) : WeekSelUI :=
  { s with weekIndex :=
      ((weekBlocks (daysInMonth s.weekYear s.weekMonth)).map (fun b => b.1)).headD 1 }

/-- main.js lines 395-405, `syncSelectionsFromDate`: set year and month
from the date, rebuild the week-index options, then select
`Math.floor((dd-1)/7)+1`. -/
def syncFromDate (y : Int) (m dd : Nat) (s : WeekSelUI) : WeekSelUI :=
  let s1 := rebuildWeekIndex { s with weekYear := y, weekMonth := m }
  { s1 with weekIndex := weekIndexInMonth dd }

/-- main.js lines 248-253: the hourly value rendered for hour `h`,
`data.pass && data.pass[h] != null ? data.pass[h] : 0` — a missing
array, a missing index, or a nullish element renders as `0`; any other
raw element is rendered as-is. -/
def renderRow : Option (List JsVal) → Nat → JsVal
  | none, _ => .num 0
  | some l, h =>
      match l.getD h .undefined with
      | .null => .num 0
      | .undefined => .num 0
      | v => v

/-- main.js lines 248-253: `for(let h=0; h<24; h++)` — one table row per
hour with the pass and fail cell values. -/
def dayLogRows (pass fail : Option (List JsVal)) : List (Nat × JsVal × JsVal) :=
  (List.range 24).map fun h => (h, renderRow pass h, renderRow fail h)

/-! ## Theorems: the claims and their supporting lemmas -/

lemma getDay_nonneg (d : Int) : 0 ≤ getDay d :=
  Int.emod_nonneg _ (by norm_num)

lemma getDay_lt (d : Int) : getDay d < 7 :=
  Int.emod_lt_of_pos _ (by norm_num)

lemma emod7_eq_one (x m : Int) (h : x = 7 * m + 1) : x % 7 = 1 := by
  subst h
  rw [add_comm]
  rw [Int.add_mul_emod_self_left]
  decide

/-- The Monday computed by `mondayOf` is a Monday (`getDay = 1`). -/
lemma mondayOf_isMonday (d : Int) : getDay (mondayOf d) = 1 := by
  unfold mondayOf getDay at *
  have hdm := Int.ediv_add_emod (d + 4) 7
  have h1 : 0 ≤ (d + 4) % 7 := Int.emod_nonneg _ (by norm_num)
  have h2 : (d + 4) % 7 < 7 := Int.emod_lt_of_pos _ (by norm_num)
  split_ifs with h
  · exact emod7_eq_one _ ((d + 4) / 7 - 1) (by omega)
  · exact emod7_eq_one _ ((d + 4) / 7) (by omega)

/-- For `0 ≤ e < 7`, `(e + 6) % 7` is `6` when `e = 0` and `e - 1` otherwise. -/
lemma emod7_add_six (e : Int) (h1 : 0 ≤ e) (h2 : e < 7) :
    (e + 6) % 7 = if e = 0 then 6 else e - 1 := by
  interval_cases e <;> decide

/-- C3. `weekDatesFrom(D)` returns exactly the 7 consecutive dates starting at
`mondayOf D`; that start is a Monday; `D` lies within the range; a Sunday
anchor is the last element of the range; and the start obeys the formula
`Monday = D - ((weekday(D) + 6) mod 7)` (Sunday = 0 maps to offset 6). -/
theorem C3_weekWindow (d : Int) :
    weekDatesFrom d =
      [mondayOf d, mondayOf d + 1, mondayOf d + 2, mondayOf d + 3,
       mondayOf d + 4, mondayOf d + 5, mondayOf d + 6] ∧
    (weekDatesFrom d).length = 7 ∧
    getDay (mondayOf d) = 1 ∧
    mondayOf d ≤ d ∧ d ≤ mondayOf d + 6 ∧
    (getDay d = 0 → d = mondayOf d + 6) ∧
    mondayOf d = d - ((getDay d + 6) % 7) := by
  have h1 : 0 ≤ getDay d := getDay_nonneg d
  have h2 : getDay d < 7 := getDay_lt d
  have hm := emod7_add_six (getDay d) h1 h2
  have hl : weekDatesFrom d =
      [mondayOf d, mondayOf d + 1, mondayOf d + 2, mondayOf d + 3,
       mondayOf d + 4, mondayOf d + 5, mondayOf d + 6] := by
    norm_num [weekDatesFrom, List.range_succ]
  refine ⟨hl, ?_, mondayOf_isMonday d, ?_, ?_, ?_, ?_⟩
  · rw [hl]
    rfl
  · unfold mondayOf
    split_ifs <;> omega
  · unfold mondayOf
    split_ifs <;> omega
  · intro h0
    unfold mondayOf
    rw [if_pos h0]
    ring
  · unfold mondayOf
    rw [hm]
    split_ifs <;> omega

/-- Witness for C3 at the concrete Sunday 2024-01-14 (epoch day 19736):
the anchor is indeed a Sunday and all conjuncts hold there. -/
theorem C3_weekWindow_witness :
    getDay 19736 = 0 ∧ (19736 : Int) = mondayOf 19736 + 6 := by
  have h := C3_weekWindow 19736
  have hs : getDay 19736 = 0 := by decide
  exact ⟨hs, h.2.2.2.2.2.1 hs⟩

lemma daysInMonth_cases (y : Int) (m : Nat) :
    daysInMonth y m = 28 ∨ daysInMonth y m = 29 ∨
    daysInMonth y m = 30 ∨ daysInMonth y m = 31 := by
  unfold daysInMonth
  split_ifs <;> simp

/-- C4. The `buildWeekIndex` loop emits exactly `⌈N/7⌉` blocks for an
`N`-day month; the `w`-th block is the spec's closed form
`weekBlockRange`; the block lengths sum to `N`; every day `1..N` lies in
exactly one block, namely the one numbered `weekIndexInMonth day`; and
for the 29-day February 2024, block 4 covers days 22-28 while day 29 has
week index 5. -/
theorem C4_weekBlockPartition (y : Int) (m : Nat) (hm1 : 1 ≤ m) (hm2 : m ≤ 12) :
    (weekBlocks (daysInMonth y m)).length = (daysInMonth y m + 6) / 7
  ∧ (∀ w, w ≤ (daysInMonth y m + 6) / 7 → 1 ≤ w →
      (weekBlocks (daysInMonth y m)).getD (w - 1) (0, 0, 0)
        = (w, (weekBlockRange y m w).1, (weekBlockRange y m w).2))
  ∧ ((weekBlocks (daysInMonth y m)).map (fun b => b.2.2 + 1 - b.2.1)).sum
      = daysInMonth y m
  ∧ (∀ day, day ≤ daysInMonth y m → 1 ≤ day →
      (weekBlocks (daysInMonth y m)).countP
          (fun b => decide (b.2.1 ≤ day ∧ day ≤ b.2.2)) = 1
    ∧ ((weekBlocks (daysInMonth y m)).getD (weekIndexInMonth day - 1) (0, 0, 0)).2.1 ≤ day
    ∧ day ≤ ((weekBlocks (daysInMonth y m)).getD (weekIndexInMonth day - 1) (0, 0, 0)).2.2)
  ∧ isLeap 2024 = true ∧ daysInMonth 2024 2 = 29
  ∧ (weekBlocks 29).getD 3 (0, 0, 0) = (4, 22, 28)
  ∧ weekIndexInMonth 29 = 5 := by
  rcases daysInMonth_cases y m with h | h | h | h <;>
    · simp only [weekBlockRange, h]
      decide

/-- Witness for C4 at February 2024: the month bounds hold and the
block lengths of the 29-day month sum to 29. -/
theorem C4_weekBlockPartition_witness :
    (1 ≤ 2 ∧ 2 ≤ 12) ∧
    ((weekBlocks (daysInMonth 2024 2)).map (fun b => b.2.2 + 1 - b.2.1)).sum
      = daysInMonth 2024 2 :=
  ⟨⟨by decide, by decide⟩,
   (C4_weekBlockPartition 2024 2 (by decide) (by decide)).2.2.1⟩

lemma getD_range_map {α : Type} (f : Nat → α) (n i : Nat) (h : i < n) (d : α) :
    ((List.range n).map f).getD i d = f i := by
  rw [List.getD_eq_getElem _ _ (by simpa using h)]
  simp

lemma getD_map {α β : Type} (f : α → β) (l : List α) (i : Nat) (d : α) :
    (l.map f).getD i (f d) = f (l.getD i d) := by
  rcases Nat.lt_or_ge i l.length with h | h
  · rw [List.getD_eq_getElem _ _ (by simpa using h), List.getD_eq_getElem _ _ h]
    simp
  · rw [List.getD_eq_default _ _ (by simpa using h), List.getD_eq_default _ _ h]

lemma groupedWeek_counts (results : List (Except FetchErr LogResp)) :
    (results.map settleLog).map dayCounts
      = results.map (fun r => dayCounts (settleLog r)) := by
  rw [List.map_map]
  rfl

/-- C1. The week-grouped fetch issues one sub-request per element of the
7-element week window; the grouped bar chart always receives exactly 7
pass and 7 fail values; a failed day's slot holds zero pass and zero
fail; and the spec's concrete scenario (Wednesday failing) renders
exactly the given arrays with the failed day zero-filled. -/
theorem C1_partialFailureTolerance
    (results : List (Except FetchErr LogResp)) (hlen : results.length = 7) :
    (∀ d : Int, (weekDatesFrom d).length = 7)
  ∧ (groupedWeek results).1.length = 7
  ∧ (groupedWeek results).2.length = 7
  ∧ (∀ i e, i < 7 → results.getD i (.ok (.arr [])) = .error e →
      (groupedWeek results).1.getD i none = some 0
      ∧ (groupedWeek results).2.getD i none = some 0)
  ∧ groupedWeek scenarioResults
      = ([some 5, some 10, some 0, some 3, some 8, some 2, some 1],
         [some 1, some 2, some 0, some 0, some 1, some 0, some 0]) := by
  refine ⟨fun d => by simp only [weekDatesFrom, List.length_map, List.length_range],
    by simp only [groupedWeek, List.length_map, List.length_range],
    by simp only [groupedWeek, List.length_map, List.length_range], ?_, by decide⟩
  intro i e hi he
  have hkey : ((results.map settleLog).map dayCounts).getD i (some 0, some 0)
      = (some 0, some 0) := by
    rw [groupedWeek_counts]
    have hd : (some (0 : Int), some (0 : Int))
        = dayCounts (settleLog (.ok (.arr []))) := by rfl
    rw [hd, getD_map, he]
    rfl
  constructor
  · simp only [groupedWeek]
    rw [getD_range_map _ _ _ hi, hkey]
  · simp only [groupedWeek]
    rw [getD_range_map _ _ _ hi, hkey]

/-- Witness for C1 at the spec's concrete scenario: 7 sub-responses with
Wednesday (index 2) failed, whose slots are zero-filled. -/
theorem C1_partialFailureTolerance_witness :
    scenarioResults.length = 7
  ∧ (groupedWeek scenarioResults).1.getD 2 none = some 0
  ∧ (groupedWeek scenarioResults).2.getD 2 none = some 0 :=
  ⟨by decide,
   (C1_partialFailureTolerance scenarioResults (by decide)).2.2.2.1 2
     ⟨500, "boom"⟩ (by decide) (by decide)⟩

/-- C7. For a payload entry whose pass/fail slots read as the numbers
`p` and `f`: the rate is `round(100·p/(p+f))` whenever `p+f > 0` and
exactly `0` when `p+f = 0` (a total function — never NaN, never an
error); the Month and Year pipelines apply the identical rule; and the
spec's example `pass=[40,35]`, `fail=[10,5]` yields `[80, 88]`. -/
theorem C7_passRate (labels : List String) (pass fail : List JsVal) (i : Nat)
    (hi : i < labels.length) (p f : Int)
    (hp : numOrNaN (pass.getD i .undefined) = some p)
    (hf : numOrNaN (fail.getD i .undefined) = some f) :
    (0 < p + f →
      (monthRate labels pass fail).getD i 0
        = mathRound (100 * (p : ℚ) / ((p : ℚ) + (f : ℚ))))
  ∧ (p + f = 0 → (monthRate labels pass fail).getD i 0 = 0)
  ∧ yearRate labels pass fail = monthRate labels pass fail
  ∧ monthRate ["Tuần 1", "Tuần 2"] [.num 40, .num 35] [.num 10, .num 5]
      = [80, 88] := by
  have hentry : (monthRate labels pass fail).getD i 0 = rateEntryMonth pass fail i := by
    unfold monthRate
    exact getD_range_map _ _ _ hi _
  refine ⟨?_, ?_, rfl, ?_⟩
  · intro hpos
    rw [hentry]
    unfold rateEntryMonth
    rw [hp, hf]
    have hne : p + f ≠ 0 := by omega
    simp only [hne, if_false]
    congr 1
    have hq : (p : ℚ) + (f : ℚ) ≠ 0 := by
      have : ((p + f : Int) : ℚ) ≠ 0 := Int.cast_ne_zero.mpr hne
      push_cast at this
      exact this
    field_simp
    ring
  · intro hz
    rw [hentry]
    unfold rateEntryMonth
    rw [hp, hf]
    simp [hz]
  · show List.map _ (List.range 2) = _
    norm_num [List.range_succ, rateEntryMonth, numOrNaN, mathRound]

/-- Witness for C7 at index 0 of the spec's example payload. -/
theorem C7_passRate_witness :
    (0 : Nat) < 2
  ∧ (monthRate ["Tuần 1", "Tuần 2"] [.num 40, .num 35] [.num 10, .num 5]).getD 0 0
      = mathRound (100 * ((40 : Int) : ℚ) / (((40 : Int) : ℚ) + ((10 : Int) : ℚ))) :=
  ⟨by decide,
   (C7_passRate ["Tuần 1", "Tuần 2"] [.num 40, .num 35] [.num 10, .num 5] 0
      (by decide) 40 10 (by decide) (by decide)).1 (by decide)⟩

lemma cumFrom_map_some (acc : Int) (l : List Int) :
    cumFrom (some acc) (l.map some) = (cumInts acc l).map some := by
  induction l generalizing acc with
  | nil => rfl
  | cons v rest ih => simp [cumFrom, cumInts, nadd, ih]

lemma readCapped_map_num (nums : List Int) :
    readCapped (nums.map .num) nums.length = nums.map some := by
  apply List.ext_getElem
  · simp [readCapped]
  · intro i h1 h2
    simp only [readCapped, List.getElem_map, List.getElem_range]
    rw [List.getD_eq_getElem _ _ (by simpa using h2), List.getElem_map]
    rfl

lemma cumInts_length (acc : Int) (l : List Int) :
    (cumInts acc l).length = l.length := by
  induction l generalizing acc with
  | nil => rfl
  | cons v rest ih => simp [cumInts, ih]

lemma cumInts_getD (acc : Int) (l : List Int) (i : Nat) (h : i < l.length) :
    (cumInts acc l).getD i 0 = acc + (l.take (i + 1)).sum := by
  induction l generalizing acc i with
  | nil => simp at h
  | cons v rest ih =>
    cases i with
    | zero => simp [cumInts]
    | succ j =>
      rw [show cumInts acc (v :: rest) = (acc + v) :: cumInts (acc + v) rest from rfl]
      rw [List.getD_cons_succ, ih (acc + v) j (by simpa using h)]
      rw [List.take_succ_cons, List.sum_cons]
      ring

lemma cumInts_last (acc : Int) (l : List Int) (h : l ≠ []) :
    (cumInts acc l).getLast? = some (acc + l.sum) := by
  induction l generalizing acc with
  | nil => simp at h
  | cons v rest ih =>
    cases rest with
    | nil => simp [cumInts]
    | cons w rs =>
      have ht := ih (acc + v) (by simp)
      rw [show cumInts acc (v :: w :: rs) = (acc + v) :: cumInts (acc + v) (w :: rs) from rfl]
      rw [show cumInts (acc + v) (w :: rs)
            = (acc + v + w) :: cumInts (acc + v + w) rs from rfl] at ht ⊢
      rw [List.getLast?_cons_cons, ht]
      congr 1
      simp only [List.sum_cons]
      ring

/-- C8. With a numeric payload whose arrays match the label count:
`toCumulative` produces exactly the running prefix sums of the pass and
fail arrays (`cum[i] = cum[i-1] + raw[i]`, `cum[-1] = 0`); for
non-negative inputs the outputs are monotonically non-decreasing; the
last element equals the sum of the corresponding raw array; and an
empty payload yields empty outputs. -/
theorem C8_toCumulative (labels : List String) (nums fns : List Int)
    (hp : nums.length = labels.length) (hf : fns.length = labels.length) :
    toCumulative labels (nums.map .num) (fns.map .num)
      = ((cumInts 0 nums).map some, (cumInts 0 fns).map some)
  ∧ (cumInts 0 nums).length = nums.length
  ∧ (∀ i, i < nums.length → (cumInts 0 nums).getD i 0 = (nums.take (i + 1)).sum)
  ∧ (∀ i, i + 1 < nums.length →
      (cumInts 0 nums).getD (i + 1) 0
        = (cumInts 0 nums).getD i 0 + nums.getD (i + 1) 0)
  ∧ ((∀ x ∈ nums, 0 ≤ x) → ∀ i, i + 1 < nums.length →
      (cumInts 0 nums).getD i 0 ≤ (cumInts 0 nums).getD (i + 1) 0)
  ∧ (nums ≠ [] → (cumInts 0 nums).getLast? = some nums.sum)
  ∧ (∀ p f : List JsVal, toCumulative [] p f = ([], [])) := by
  refine ⟨?_, cumInts_length 0 nums, ?_, ?_, ?_, ?_, fun p f => rfl⟩
  · have h1 : readCapped (nums.map JsVal.num) labels.length = nums.map some := by
      rw [← hp]
      exact readCapped_map_num nums
    have h2 : readCapped (fns.map JsVal.num) labels.length = fns.map some := by
      rw [← hf]
      exact readCapped_map_num fns
    unfold toCumulative
    rw [h1, h2, cumFrom_map_some, cumFrom_map_some]
  · intro i hi
    rw [cumInts_getD 0 nums i hi]
    ring
  · intro i hi
    rw [cumInts_getD 0 nums i (by omega), cumInts_getD 0 nums (i + 1) hi]
    rw [List.sum_take_succ nums (i + 1) hi]
    rw [List.getD_eq_getElem _ _ hi]
    ring
  · intro hnn i hi
    rw [cumInts_getD 0 nums i (by omega), cumInts_getD 0 nums (i + 1) hi]
    have hs := List.sum_take_succ nums (i + 1) hi
    have hx : 0 ≤ nums[i + 1] := hnn _ (List.getElem_mem hi)
    omega
  · intro hne
    rw [cumInts_last 0 nums hne]
    congr 1
    ring

/-- Witness for C8 at a concrete 3-element payload. -/
theorem C8_toCumulative_witness :
    toCumulative ["a", "b", "c"]
        ([1, 2, 3].map JsVal.num) ([4, 0, 5].map JsVal.num)
      = ((cumInts 0 [1, 2, 3]).map some, (cumInts 0 [4, 0, 5]).map some)
  ∧ (cumInts 0 [1, 2, 3]).getLast? = some ([1, 2, 3] : List Int).sum :=
  ⟨(C8_toCumulative ["a", "b", "c"] [1, 2, 3] [4, 0, 5] (by decide) (by decide)).1,
   (C8_toCumulative ["a", "b", "c"] [1, 2, 3] [4, 0, 5] (by decide)
      (by decide)).2.2.2.2.2.1 (by decide)⟩

/-- C6. A non-2xx response surfaces as a typed error carrying the status
and the body text; each single-request pipeline maps that failure to the
localized placeholder in its own view label while leaving every other
chart-state field (in particular the previously rendered chart data)
untouched; and a failing pipeline never affects what another pipeline
renders. -/
theorem C6_fetchFailure :
    (∀ (α : Type) (r : HttpResp α), r.ok = false →
      fetchJSON r = .error ⟨r.status,
        Nat.repr r.status ++ " " ++ r.statusText ++ " - " ++ r.bodyText⟩)
  ∧ (∀ st e, loadWeekStep (.error e) st = { st with weekLabelText := "Lỗi" })
  ∧ (∀ st e, loadMonthStep (.error e) st = { st with monthLabelText := "Lỗi" })
  ∧ (∀ st e y, loadYearStep y (.error e) st = { st with yearLabelText := "Lỗi" })
  ∧ (∀ st e r, monthView (loadMonthStep r (loadWeekStep (.error e) st))
      = monthView (loadMonthStep r st))
  ∧ (∀ st e r, weekView (loadWeekStep r (loadMonthStep (.error e) st))
      = weekView (loadWeekStep r st))
  ∧ (∀ st e r y, yearView (loadYearStep y r (loadWeekStep (.error e) st))
      = yearView (loadYearStep y r st)) := by
  refine ⟨?_, fun st e => rfl, fun st e => rfl, fun st e y => rfl, ?_, ?_, ?_⟩
  · intro α r hok
    unfold fetchJSON
    rw [hok]
    rfl
  · intro st e r
    cases r <;> rfl
  · intro st e r
    cases r <;> rfl
  · intro st e r y
    cases r <;> rfl

/-- Witness for C6 at a concrete 500 response: the typed error carries
the status and body text, and the error path leaves the week data
untouched. -/
theorem C6_fetchFailure_witness :
    fetchJSON (⟨false, 500, "Internal Server Error", "boom", ([] : List JsVal)⟩)
      = .error ⟨500, "500 Internal Server Error - boom"⟩ := by
  have h := C6_fetchFailure.1 (List JsVal)
    ⟨false, 500, "Internal Server Error", "boom", []⟩ rfl
  exact h

/-- C2 counterexample. Run B (for S2) completes first and writes pass
data `[2]`; the superseded run A then completes and the chart ends with
A's data `[1]`, not the state B wrote: the late completion is *not*
discarded, contradicting the claimed stale-response guard. -/
theorem C2_counterexample :
    (runCompletionsW initChart [.ok payloadB, .ok payloadA]).weekPass = [some 1]
  ∧ (loadWeekStep (.ok payloadB) initChart).weekPass = [some 2]
  ∧ ([some (1 : Int)] ≠ [some (2 : Int)]) := by
  refine ⟨rfl, rfl, by decide⟩

/-- C2 amended: the code has no stale-response guard — every completing
`loadWeek` run writes the chart unconditionally and the last completion
wins, whatever runs (stale or fresh) completed before it. -/
theorem C2_lastCompletionWins (st : ChartState)
    (rs : List (Except FetchErr WeekPayload)) (j : WeekPayload) :
    (runCompletionsW st (rs ++ [.ok j])).weekLabels = j.labels.map (fun l => l.drop 5)
  ∧ (runCompletionsW st (rs ++ [.ok j])).weekPass = j.pass.map numOrNaN
  ∧ (runCompletionsW st (rs ++ [.ok j])).weekFail = j.fail.map numOrNaN
  ∧ (runCompletionsW st (rs ++ [.ok j])).weekLabelText = j.range.getD "" := by
  have hfold : runCompletionsW st (rs ++ [.ok j])
      = loadWeekStep (.ok j) (runCompletionsW st rs) := by
    unfold runCompletionsW
    rw [List.foldl_append]
    rfl
  rw [hfold]
  exact ⟨rfl, rfl, rfl, rfl⟩

/-- C5. A week-area click whose label is day-formatted drills into the
Day pipeline anchored at that date; a month-chart click whose label
encodes `Tuần N` runs the Week pipeline for week `N`; a year-chart click
whose label encodes `Tháng M` rebuilds the week-index options and runs
the Month pipeline for month `M`; and an unparseable label is a no-op
with no error surfaced. -/
theorem C5_drillDown :
    (∀ (label : String) (lf : Option String), isDayFormat label = true →
      weekChartClick label lf = .dayDrill label)
  ∧ (∀ n, 1 ≤ n → n ≤ 5 →
      monthChartClick ("Tuần " ++ Nat.repr n) = .weekDrill n)
  ∧ (∀ m, 1 ≤ m → m ≤ 12 →
      yearChartClick ("Tháng " ++ Nat.repr m) = .monthDrill m)
  ∧ yearChartClick "Tháng 7" = .monthDrill 7
  ∧ weekChartClick "01-15" none = .noop
  ∧ weekChartClick "01-15" (some "") = .noop
  ∧ monthChartClick "January" = .noop
  ∧ yearChartClick "" = .noop := by
  refine ⟨?_, ?_, ?_, by decide, by decide, by decide, by decide, by decide⟩
  · intro label lf hd
    unfold weekChartClick
    rw [hd]
    rfl
  · intro n h1 h5
    interval_cases n <;> decide
  · intro m h1 h12
    interval_cases m <;> decide

/-- Witness for C5 at concrete labels of each kind. -/
theorem C5_drillDown_witness :
    weekChartClick "2024-01-10" none = .dayDrill "2024-01-10"
  ∧ monthChartClick "Tuần 3" = .weekDrill 3
  ∧ yearChartClick "Tháng 12" = .monthDrill 12 :=
  ⟨C5_drillDown.1 "2024-01-10" none (by decide),
   C5_drillDown.2.1 3 (by decide) (by decide),
   C5_drillDown.2.2.1 12 (by decide) (by decide)⟩

/-- C9 counterexample. With week 5 selected and the month changed to
February 2023 (28 days, 4 blocks), the rebuild selects week 1 — not the
last valid block 4 the claim's clamping rule demands. -/
theorem C9_counterexample :
    (rebuildWeekIndex ⟨2023, 2, 5⟩).weekIndex = 1
  ∧ (daysInMonth 2023 2 + 6) / 7 = 4
  ∧ (1 : Nat) ≠ 4 := by
  refine ⟨by decide, by decide, by decide⟩

lemma weekBlocks_head (days : Nat) (h : 1 ≤ days) :
    ((weekBlocks days).map (fun b => b.1)).headD 1 = 1 := by
  cases days with
  | zero => omega
  | succ d => simp [weekBlocks, weekBlocksAux]

/-- C9 amended. After every modeled selection operation the week index
lies within `[1, ⌈daysInMonth/7⌉]`; but when a month/year change
rebuilds the options, the selection resets to the *first* block
(week 1) regardless of the previous value — it is not clamped to the
last valid block. -/
theorem C9_weekIndexRange (s : WeekSelUI) (y : Int) (m dd : Nat)
    (hdd1 : 1 ≤ dd) (hdd2 : dd ≤ daysInMonth y m) :
    (rebuildWeekIndex s).weekIndex = 1
  ∧ 1 ≤ (rebuildWeekIndex s).weekIndex
  ∧ (rebuildWeekIndex s).weekIndex
      ≤ (daysInMonth s.weekYear s.weekMonth + 6) / 7
  ∧ (syncFromDate y m dd s).weekIndex = weekIndexInMonth dd
  ∧ 1 ≤ (syncFromDate y m dd s).weekIndex
  ∧ (syncFromDate y m dd s).weekIndex ≤ (daysInMonth y m + 6) / 7 := by
  have hd := daysInMonth_cases s.weekYear s.weekMonth
  have hdym := daysInMonth_cases y m
  have hr : (rebuildWeekIndex s).weekIndex = 1 := by
    unfold rebuildWeekIndex
    exact weekBlocks_head _ (by omega)
  refine ⟨hr, by omega, ?_, rfl, ?_, ?_⟩
  · rw [hr]
    omega
  · show 1 ≤ weekIndexInMonth dd
    unfold weekIndexInMonth
    omega
  · show weekIndexInMonth dd ≤ (daysInMonth y m + 6) / 7
    unfold weekIndexInMonth
    omega

/-- Witness for C9 amended at 2024-02-29 with a stale week-5 selection. -/
theorem C9_weekIndexRange_witness :
    (1 ≤ 29 ∧ 29 ≤ daysInMonth 2024 2)
  ∧ (syncFromDate 2024 2 29 ⟨2023, 3, 5⟩).weekIndex = weekIndexInMonth 29 :=
  ⟨⟨by decide, by decide⟩,
   (C9_weekIndexRange ⟨2023, 3, 5⟩ 2024 2 29 (by decide) (by decide)).2.2.2.1⟩

lemma foldl_toNum0 (c : Int) (l : List JsVal) :
    l.foldl (fun a b => a + toNum0 b) c = c + (l.map toNum0).sum := by
  induction l generalizing c with
  | nil => simp
  | cons x xs ih => simp [List.foldl_cons, ih, add_assoc]

/-- C10. Missing, null and undefined payload slots read as `0` in the
pipelines; the summation helper maps non-numeric elements to `0` and a
missing or empty array to `0`; pass-rate entries read `0` beyond a
shorter array's end (an empty pass/fail pair yields all-zero rates of
the label count's length, not an error); a device-stat item with a
missing `pass` field contributes nothing to the grouped day counts; and
the hourly log table always renders exactly 24 rows, substituting `0`
for absent or nullish hours. -/
theorem C10_payloadTotality :
    (numOrNaN .null = some 0 ∧ numOrNaN .undefined = some 0)
  ∧ (toNum0 .null = 0 ∧ toNum0 .undefined = 0 ∧ toNum0 .nonNumeric = 0)
  ∧ (∀ l : List JsVal, sumHelper (some l) = (l.map toNum0).sum)
  ∧ sumHelper none = 0
  ∧ (∀ labels : List String,
      monthRate labels [] [] = List.replicate labels.length 0)
  ∧ (∀ (f : JsVal) (items : List DeviceStat),
      dayCounts (.arr ({ pass := .undefined, fail := f } :: items))
        = dayCounts (.arr ({ pass := .num 0, fail := f } :: items)))
  ∧ (∀ pass fail, (dayLogRows pass fail).length = 24)
  ∧ (∀ h, renderRow none h = .num 0)
  ∧ (∀ (l : List JsVal) (h : Nat), l.length ≤ h → renderRow (some l) h = .num 0)
  ∧ (∀ (l : List JsVal) (h : Nat), l.getD h .undefined = .null →
      renderRow (some l) h = .num 0) := by
  refine ⟨⟨rfl, rfl⟩, ⟨rfl, rfl, rfl⟩, ?_, rfl, ?_, ?_, ?_, fun h => rfl, ?_, ?_⟩
  · intro l
    cases l with
    | nil => rfl
    | cons x xs =>
      show (if (x :: xs).length = 0 then (0 : Int)
            else (x :: xs).foldl (fun a b => a + toNum0 b) 0)
          = (List.map toNum0 (x :: xs)).sum
      rw [if_neg (by simp)]
      rw [foldl_toNum0]
      omega
  · intro labels
    unfold monthRate
    apply List.ext_getElem
    · simp
    · intro i h1 h2
      simp only [List.getElem_map, List.getElem_range, List.getElem_replicate]
      rfl
  · intro f items
    unfold dayCounts
    rfl
  · intro pass fail
    simp [dayLogRows]
  · intro l h hlen
    show (match l.getD h JsVal.undefined with
          | .null => JsVal.num 0
          | .undefined => JsVal.num 0
          | v => v) = JsVal.num 0
    rw [List.getD_eq_default _ _ hlen]
  · intro l h hnull
    show (match l.getD h JsVal.undefined with
          | .null => JsVal.num 0
          | .undefined => JsVal.num 0
          | v => v) = JsVal.num 0
    rw [hnull]

/-- Witness for C10: the sum helper zeroes a non-numeric element, rates
of an empty payload are all zero, and an absent hour renders as `0`. -/
theorem C10_payloadTotality_witness :
    sumHelper (some [.num 3, .nonNumeric, .num 4])
      = ([JsVal.num 3, .nonNumeric, .num 4].map toNum0).sum
  ∧ monthRate ["a", "b"] [] [] = List.replicate 2 0
  ∧ renderRow (some [.num 9]) 5 = .num 0 :=
  ⟨C10_payloadTotality.2.2.1 [.num 3, .nonNumeric, .num 4],
   C10_payloadTotality.2.2.2.2.1 ["a", "b"],
   C10_payloadTotality.2.2.2.2.2.2.2.2.1 [.num 9] 5 (by decide)⟩

end ChartWeb
